import Mathlib

/-!
Verification of the extraction-dispatch layer of the `awesome-web-scraper`
repository: a shallow embedding in Lean 4 of the circuit breaker, the
extraction orchestrator (`src/services/extraction/extraction_orchestrator.py`),
the proxy health model (`src/common/models/proxy_config.py`) and the proxy
rotator (`src/services/proxy_management/proxy_rotator.py`), together with
theorems settling the specification claims about them.

Python floats and timestamps are modelled as rationals (`ℚ`); Python dicts
keyed by strings are modelled as functions `String → _`; in-place mutation is
modelled by explicit state passing.  Calls into the external extraction
services are modelled by oracle parameters returning either a result or an
exception value (Python `try/except` around the call).
-/

namespace WebScraper

/-! ### Data model (`src/common/models`) -/

/-- `ScrapeMethod` from `scrape_request.py` (the backend identifier). -/
inductive ScrapeMethod
  | scrapy
  | pydoll
  | playwright
  deriving DecidableEq, Repr

/-- `ScrapeStatus` from `scrape_result.py`. -/
inductive ScrapeStatus
  | pending
  | running
  | success
  | failed
  | timeout
  | blocked
  | rate_limited
  deriving DecidableEq, Repr

/-- `Priority` from `scrape_request.py`. -/
inductive Priority
  | low
  | normal
  | high
  | urgent
  deriving DecidableEq, Repr

/-- `AuthType` from `scrape_request.py` (`noAuth` stands for the `"none"` member). -/
inductive AuthType
  | noAuth
  | basic
  | bearer
  | oauth
  | form
  | custom
  deriving DecidableEq, Repr

/-- `ScrapeRequest` from `scrape_request.py`.  The inherited pydantic `id`
field (`base.py`) is an optional string; dict-valued fields are association
lists. -/
structure ScrapeRequest where
  id : Option String := none
  url : String
  method : ScrapeMethod := .scrapy
  priority : Priority := .normal
  auth_type : AuthType := .noAuth
  auth_credentials : Option (List (String × String)) := none
  headers : List (String × String) := []
  cookies : List (String × String) := []
  selectors : List (String × String) := []
  wait_conditions : List String := []
  timeout : Nat := 30
  use_proxy : Bool := true
  proxy_type : Option String := none
  use_stealth : Bool := true
  human_like_delays : Bool := true
  max_retries : Nat := 3
  retry_delay : Nat := 5
  extract_links : Bool := false
  extract_images : Bool := false
  extract_text : Bool := true
  callback_url : Option String := none
  custom_config : List (String × String) := []
  deriving DecidableEq, Repr

/-- `ScrapeResult` from `scrape_result.py` (the fields the orchestrator and
the claims touch; the remaining optional fields default to `none`/empty just
as in the pydantic model). -/
structure ScrapeResult where
  request_id : String
  status : ScrapeStatus
  status_code : Option Nat := none
  response_time : Option ℚ := none
  data : List (String × String) := []
  links : List String := []
  images : List String := []
  error_message : Option String := none
  error_type : Option String := none
  proxy_used : Option String := none
  retry_count : Nat := 0
  deriving DecidableEq, Repr

/-- Python `str(request.id) if request.id else ""` (an absent id becomes `""`). -/
def requestIdStr (r : ScrapeRequest) : String := r.id.getD ""

/-! ### Circuit breaker (`extraction_orchestrator.py`, breaker dicts) -/

/-- The three values of the breaker's `"state"` key (`"open"` is a Lean
keyword, rendered `opened`). -/
inductive BreakerState
  | closed
  | opened
  | half_open
  deriving DecidableEq, Repr

/-- One breaker dict as created in `ExtractionOrchestrator.initialize`
(defaults are the initial values installed there; `half_open_calls` is the
key first written by `_check_circuit_breaker`, read with default 0). -/
structure CircuitBreaker where
  state : BreakerState := .closed
  failure_count : Nat := 0
  last_failure_time : ℚ := 0
  failure_threshold : Nat := 5
  recovery_timeout : ℚ := 60
  half_open_max_calls : Nat := 3
  half_open_calls : Nat := 0
  deriving DecidableEq, Repr

/-- `ExtractionOrchestrator._check_circuit_breaker` (lines 278-300): returns
whether the call is admitted together with the updated breaker; `now` models
`time.time()`. -/
def check_circuit_breaker (b : CircuitBreaker) (now : ℚ) : Bool × CircuitBreaker :=
  if b.state = .closed then
    (true, b)
  else if b.state = .opened then
    if now - b.last_failure_time > b.recovery_timeout then
      (true, { b with state := .half_open, half_open_calls := 0 })
    else
      (false, b)
  else if b.state = .half_open then
    if b.half_open_calls < b.half_open_max_calls then
      (true, { b with half_open_calls := b.half_open_calls + 1 })
    else
      (false, b)
  else
    (false, b)

/-- `ExtractionOrchestrator._update_circuit_breaker` (lines 302-321); `now`
models the `time.time()` stored into `last_failure_time`. -/
def update_circuit_breaker (b : CircuitBreaker) (success : Bool) (now : ℚ) : CircuitBreaker :=
  if success then
    if b.state = .half_open then { b with state := .closed, failure_count := 0 }
    else if b.state = .closed then { b with failure_count := 0 }
    else b
  else
    let b' := { b with failure_count := b.failure_count + 1, last_failure_time := now }
    if b'.failure_threshold ≤ b'.failure_count then { b' with state := .opened } else b'

/-- The breaker dict installed by `initialize` for each method. -/
def initBreaker : CircuitBreaker := {}

/-- One operation performed on a breaker dict by the orchestrator: an
admission check or an outcome record. -/
inductive BreakerOp
  | check (now : ℚ)
  | update (success : Bool) (now : ℚ)
  deriving DecidableEq, Repr

/-- Apply one operation to a breaker (dropping the admission verdict). -/
def applyBreakerOp (b : CircuitBreaker) : BreakerOp → CircuitBreaker
  | .check now => (check_circuit_breaker b now).2
  | .update success now => update_circuit_breaker b success now

/-- Run a sequence of breaker operations. -/
def runBreakerOps (b : CircuitBreaker) : List BreakerOp → CircuitBreaker
  | [] => b
  | op :: ops => runBreakerOps (applyBreakerOp b op) ops

/-- A breaker value actually reachable in the program: obtained from the
dict installed by `initialize` by some sequence of checks and updates. -/
def ReachableBreaker (b : CircuitBreaker) : Prop :=
  ∃ ops : List BreakerOp, runBreakerOps initBreaker ops = b

/-- Apply `n` consecutive failure outcomes. -/
def failN : Nat → CircuitBreaker → ℚ → CircuitBreaker
  | 0, b, _ => b
  | n + 1, b, now => failN n (update_circuit_breaker b false now) now

/-- Run a sequence of admission checks at the given times, counting how many
calls are admitted. -/
def runChecks (b : CircuitBreaker) : List ℚ → Nat × CircuitBreaker
  | [] => (0, b)
  | t :: ts =>
    ((if (check_circuit_breaker b t).1 then 1 else 0) +
        (runChecks (check_circuit_breaker b t).2 ts).1,
      (runChecks (check_circuit_breaker b t).2 ts).2)

/-! ### Breaker characterization lemmas -/

theorem update_false_eq (b : CircuitBreaker) (now : ℚ) :
    update_circuit_breaker b false now =
      if b.failure_threshold ≤ b.failure_count + 1 then
        { b with state := .opened, failure_count := b.failure_count + 1, last_failure_time := now }
      else
        { b with failure_count := b.failure_count + 1, last_failure_time := now } := rfl

theorem update_true_closed (b : CircuitBreaker) (now : ℚ) (hs : b.state = .closed) :
    update_circuit_breaker b true now = { b with failure_count := 0 } := by
  simp [update_circuit_breaker, hs]

theorem update_true_half_open (b : CircuitBreaker) (now : ℚ) (hs : b.state = .half_open) :
    update_circuit_breaker b true now = { b with state := .closed, failure_count := 0 } := by
  simp [update_circuit_breaker, hs]

theorem update_true_opened (b : CircuitBreaker) (now : ℚ) (hs : b.state = .opened) :
    update_circuit_breaker b true now = b := by
  simp [update_circuit_breaker, hs]

theorem check_closed (b : CircuitBreaker) (now : ℚ) (hs : b.state = .closed) :
    check_circuit_breaker b now = (true, b) := by
  simp [check_circuit_breaker, hs]

theorem check_opened_recover (b : CircuitBreaker) (now : ℚ) (hs : b.state = .opened)
    (ht : now - b.last_failure_time > b.recovery_timeout) :
    check_circuit_breaker b now = (true, { b with state := .half_open, half_open_calls := 0 }) := by
  simp [check_circuit_breaker, hs, ht]

theorem check_opened_wait (b : CircuitBreaker) (now : ℚ) (hs : b.state = .opened)
    (ht : ¬ now - b.last_failure_time > b.recovery_timeout) :
    check_circuit_breaker b now = (false, b) := by
  simp [check_circuit_breaker, hs, ht]

theorem check_half_open_grant (b : CircuitBreaker) (now : ℚ) (hs : b.state = .half_open)
    (hc : b.half_open_calls < b.half_open_max_calls) :
    check_circuit_breaker b now =
      (true, { b with half_open_calls := b.half_open_calls + 1 }) := by
  simp [check_circuit_breaker, hs, hc]

theorem check_half_open_reject (b : CircuitBreaker) (now : ℚ) (hs : b.state = .half_open)
    (hc : ¬ b.half_open_calls < b.half_open_max_calls) :
    check_circuit_breaker b now = (false, b) := by
  simp [check_circuit_breaker, hs, hc]

/-! ### Breaker invariant and claim theorems C3, C4, C9 -/

/-- The inductive invariant of the breaker dict: whenever the breaker is not
`closed`, its failure count has already reached the threshold (the only
`closed → opened` edge is guarded by the threshold test, and the count is
never reset on `opened → half_open`). -/
def BreakerInv (b : CircuitBreaker) : Prop :=
  b.state ≠ .closed → b.failure_threshold ≤ b.failure_count

theorem breakerInv_init : BreakerInv initBreaker := by
  intro h
  simp [initBreaker] at h

theorem breakerInv_applyOp (b : CircuitBreaker) (op : BreakerOp) (hb : BreakerInv b) :
    BreakerInv (applyBreakerOp b op) := by
  cases op with
  | check now =>
    show BreakerInv (check_circuit_breaker b now).2
    cases hst : b.state with
    | closed =>
      rw [check_closed b now hst]
      exact hb
    | opened =>
      by_cases ht : now - b.last_failure_time > b.recovery_timeout
      · rw [check_opened_recover b now hst ht]
        intro _
        exact hb (by simp [hst])
      · rw [check_opened_wait b now hst ht]
        exact hb
    | half_open =>
      by_cases hc : b.half_open_calls < b.half_open_max_calls
      · rw [check_half_open_grant b now hst hc]
        intro _
        exact hb (by simp [hst])
      · rw [check_half_open_reject b now hst hc]
        exact hb
  | update success now =>
    show BreakerInv (update_circuit_breaker b success now)
    cases success with
    | true =>
      cases hst : b.state with
      | closed =>
        rw [update_true_closed b now hst]
        intro h
        exact absurd hst h
      | opened =>
        rw [update_true_opened b now hst]
        exact hb
      | half_open =>
        rw [update_true_half_open b now hst]
        intro h
        exact absurd rfl h
    | false =>
      rw [update_false_eq]
      split
      · next h =>
        intro _
        exact h
      · next h =>
        intro hcl
        exact Nat.le_succ_of_le (hb hcl)

theorem breakerInv_runOps (ops : List BreakerOp) :
    ∀ b : CircuitBreaker, BreakerInv b → BreakerInv (runBreakerOps b ops) := by
  induction ops with
  | nil => intro b hb; exact hb
  | cons op ops ih =>
    intro b hb
    exact ih _ (breakerInv_applyOp b op hb)

theorem breakerInv_of_reachable (b : CircuitBreaker) (h : ReachableBreaker b) :
    BreakerInv b := by
  obtain ⟨ops, hops⟩ := h
  simpa [hops] using breakerInv_runOps ops initBreaker breakerInv_init

/-- Claim C4: for every breaker the program can reach in state `half_open`,
recording a failed outcome moves it to `open` at once (stamping the current
time into `last_failure_time`) whatever the failure count is at that moment,
and recording a success moves it to `closed` with failure count reset to 0. -/
theorem half_open_update_transitions (b : CircuitBreaker) (hreach : ReachableBreaker b)
    (hs : b.state = .half_open) :
    (∀ now : ℚ, (update_circuit_breaker b false now).state = .opened ∧
      (update_circuit_breaker b false now).last_failure_time = now) ∧
    (∀ now : ℚ, (update_circuit_breaker b true now).state = .closed ∧
      (update_circuit_breaker b true now).failure_count = 0) := by
  have hinv : b.failure_threshold ≤ b.failure_count :=
    breakerInv_of_reachable b hreach (by simp [hs])
  constructor
  · intro now
    rw [update_false_eq, if_pos (Nat.le_succ_of_le hinv)]
    exact ⟨rfl, rfl⟩
  · intro now
    rw [update_true_half_open b now hs]
    exact ⟨rfl, rfl⟩

theorem half_open_update_transitions_witness :
    (update_circuit_breaker { state := .half_open, failure_count := 5, last_failure_time := 0 }
        false 7).state = .opened ∧
    (update_circuit_breaker { state := .half_open, failure_count := 5, last_failure_time := 0 }
        true 7).state = .closed := by
  have hreach : ReachableBreaker
      { state := .half_open, failure_count := 5, last_failure_time := 0 } := by
    refine ⟨[.update false 0, .update false 0, .update false 0, .update false 0, .update false 0,
      .check 100], ?_⟩
    norm_num [runBreakerOps, applyBreakerOp, update_circuit_breaker, check_circuit_breaker,
      initBreaker]
    rfl
  have h := half_open_update_transitions
    { state := .half_open, failure_count := 5, last_failure_time := 0 } hreach rfl
  exact ⟨(h.1 7).1, (h.2 7).1⟩

theorem failN_closed_steps (now : ℚ) :
    ∀ (k : Nat) (b : CircuitBreaker), b.state = .closed → b.failure_threshold = 5 →
      b.failure_count + k ≤ 5 → b.failure_count < 5 →
      (failN k b now).failure_count = b.failure_count + k ∧
      (failN k b now).failure_threshold = 5 ∧
      (failN k b now).state =
        (if b.failure_count + k < 5 then BreakerState.closed else .opened) := by
  intro k
  induction k with
  | zero =>
    intro b hs hth hle hlt
    refine ⟨rfl, hth, ?_⟩
    rw [if_pos (by omega)]
    exact hs
  | succ k ih =>
    intro b hs hth hle hlt
    have hstep : failN (k + 1) b now = failN k (update_circuit_breaker b false now) now := rfl
    rw [hstep, update_false_eq]
    by_cases hfull : b.failure_threshold ≤ b.failure_count + 1
    · have h5 : b.failure_count + 1 = 5 := by omega
      have hk : k = 0 := by omega
      subst hk
      rw [if_pos hfull]
      refine ⟨rfl, hth, ?_⟩
      rw [if_neg (by omega)]
      rfl
    · rw [if_neg hfull]
      have hlt' : b.failure_count + 1 < 5 := by omega
      obtain ⟨ih1, ih2, ih3⟩ := ih
        { b with failure_count := b.failure_count + 1, last_failure_time := now }
        hs hth (by show b.failure_count + 1 + k ≤ 5; omega)
        (by show b.failure_count + 1 < 5; omega)
      have h1 : (failN k { b with failure_count := b.failure_count + 1, last_failure_time := now } now).failure_count = b.failure_count + 1 + k := ih1
      have h3 : (failN k { b with failure_count := b.failure_count + 1, last_failure_time := now } now).state = (if b.failure_count + 1 + k < 5 then BreakerState.closed else .opened) := ih3
      refine ⟨by omega, ih2, ?_⟩
      rw [h3]
      by_cases hend : b.failure_count + (k + 1) < 5
      · rw [if_pos (by omega), if_pos hend]
      · rw [if_neg (by omega), if_neg hend]

/-- Claim C3: starting from a closed breaker with failure count 0 and
threshold 5, five consecutive failures open the breaker while fewer leave it
closed; a success on any closed breaker resets the count to 0, after which
exactly five fresh consecutive failures are again required to open it. -/
theorem breaker_opens_after_five_failures (b : CircuitBreaker) (now : ℚ)
    (hs : b.state = .closed) (hc : b.failure_count = 0) (hth : b.failure_threshold = 5) :
    (failN 5 b now).state = .opened ∧
    (∀ k, k < 5 → (failN k b now).state = .closed) ∧
    (∀ b2 : CircuitBreaker, b2.state = .closed → b2.failure_threshold = 5 →
      ∀ now2 : ℚ,
        (update_circuit_breaker b2 true now2).state = .closed ∧
        (update_circuit_breaker b2 true now2).failure_count = 0 ∧
        (failN 5 (update_circuit_breaker b2 true now2) now).state = .opened ∧
        (∀ k, k < 5 → (failN k (update_circuit_breaker b2 true now2) now).state = .closed)) := by
  have main : ∀ b' : CircuitBreaker, b'.state = .closed → b'.failure_count = 0 →
      b'.failure_threshold = 5 →
      (failN 5 b' now).state = .opened ∧ ∀ k, k < 5 → (failN k b' now).state = .closed := by
    intro b' hs' hc' hth'
    constructor
    · have h := (failN_closed_steps now 5 b' hs' hth' (by omega) (by omega)).2.2
      rw [h, if_neg (by omega)]
    · intro k hk
      have h := (failN_closed_steps now k b' hs' hth' (by omega) (by omega)).2.2
      rw [h, if_pos (by omega)]
  refine ⟨(main b hs hc hth).1, (main b hs hc hth).2, ?_⟩
  intro b2 hs2 hth2 now2
  rw [update_true_closed b2 now2 hs2]
  have h := main { b2 with failure_count := 0 } hs2 rfl hth2
  exact ⟨hs2, rfl, h.1, h.2⟩

theorem breaker_opens_after_five_failures_witness :
    (failN 5 initBreaker 0).state = .opened ∧
    (failN 3 initBreaker 0).state = .closed ∧
    (failN 5 (update_circuit_breaker initBreaker true 0) 0).state = .opened := by
  have h := breaker_opens_after_five_failures initBreaker 0 rfl rfl rfl
  exact ⟨h.1, h.2.1 3 (by omega), (h.2.2 initBreaker rfl rfl 0).2.2.1⟩

theorem runChecks_cons (b : CircuitBreaker) (t : ℚ) (ts : List ℚ) :
    runChecks b (t :: ts) =
      ((if (check_circuit_breaker b t).1 then 1 else 0) +
          (runChecks (check_circuit_breaker b t).2 ts).1,
        (runChecks (check_circuit_breaker b t).2 ts).2) := rfl

theorem runChecks_half_open :
    ∀ (ts : List ℚ) (b : CircuitBreaker), b.state = .half_open →
      b.half_open_calls ≤ b.half_open_max_calls →
      (runChecks b ts).1 = min ts.length (b.half_open_max_calls - b.half_open_calls) ∧
      (runChecks b ts).2.state = .half_open ∧
      (runChecks b ts).2.half_open_calls =
        min (b.half_open_calls + ts.length) b.half_open_max_calls ∧
      (runChecks b ts).2.half_open_max_calls = b.half_open_max_calls := by
  intro ts
  induction ts with
  | nil =>
    intro b hs hc
    refine ⟨?_, hs, ?_, rfl⟩
    · show (0 : Nat) = min 0 (b.half_open_max_calls - b.half_open_calls)
      omega
    · show b.half_open_calls = min (b.half_open_calls + 0) b.half_open_max_calls
      omega
  | cons t ts ih =>
    intro b hs hc
    by_cases hadm : b.half_open_calls < b.half_open_max_calls
    · obtain ⟨ih1, ih2, ih3, ih4⟩ :=
        ih { b with half_open_calls := b.half_open_calls + 1 } hs hadm
      have h1 : (runChecks { b with half_open_calls := b.half_open_calls + 1 } ts).1 = min ts.length (b.half_open_max_calls - (b.half_open_calls + 1)) := ih1
      have h3 : (runChecks { b with half_open_calls := b.half_open_calls + 1 } ts).2.half_open_calls = min (b.half_open_calls + 1 + ts.length) b.half_open_max_calls := ih3
      have h4 : (runChecks { b with half_open_calls := b.half_open_calls + 1 } ts).2.half_open_max_calls = b.half_open_max_calls := ih4
      rw [runChecks_cons, check_half_open_grant b t hs hadm]
      refine ⟨?_, ih2, ?_, h4⟩
      · show 1 + (runChecks { b with half_open_calls := b.half_open_calls + 1 } ts).1 =
          min (ts.length + 1) (b.half_open_max_calls - b.half_open_calls)
        omega
      · show (runChecks { b with half_open_calls := b.half_open_calls + 1 } ts).2.half_open_calls =
          min (b.half_open_calls + (ts.length + 1)) b.half_open_max_calls
        omega
    · obtain ⟨ih1, ih2, ih3, ih4⟩ := ih b hs hc
      rw [runChecks_cons, check_half_open_reject b t hs hadm]
      refine ⟨?_, ih2, ?_, ih4⟩
      · show 0 + (runChecks b ts).1 =
          min (ts.length + 1) (b.half_open_max_calls - b.half_open_calls)
        omega
      · show (runChecks b ts).2.half_open_calls =
          min (b.half_open_calls + (ts.length + 1)) b.half_open_max_calls
        omega

/-- Claim C9 (amended): when an open breaker's recovery timeout has elapsed,
the very next check transitions it to `half_open` and is itself admitted
without consuming probe budget; from that point at most
`half_open_max_calls = 3` further checks are admitted (4 admissions in total
counting the transition check), the breaker stays `half_open` under checks,
and once 3 further checks have happened every subsequent check is rejected. -/
theorem half_open_probe_budget (b : CircuitBreaker) (now : ℚ)
    (hs : b.state = .opened) (hmax : b.half_open_max_calls = 3)
    (ht : now - b.last_failure_time > b.recovery_timeout) (ts : List ℚ) :
    (check_circuit_breaker b now).1 = true ∧
    (check_circuit_breaker b now).2.state = .half_open ∧
    (runChecks (check_circuit_breaker b now).2 ts).1 ≤ 3 ∧
    (runChecks (check_circuit_breaker b now).2 ts).2.state = .half_open ∧
    1 + (runChecks (check_circuit_breaker b now).2 ts).1 ≤ 4 ∧
    (3 ≤ ts.length → ∀ t : ℚ,
      (check_circuit_breaker (runChecks (check_circuit_breaker b now).2 ts).2 t).1 = false) := by
  rw [check_opened_recover b now hs ht]
  obtain ⟨ih1, ih2, ih3, ih4⟩ := runChecks_half_open ts
    { b with state := .half_open, half_open_calls := 0 } rfl (Nat.zero_le _)
  have h1 : (runChecks (true, { b with state := BreakerState.half_open, half_open_calls := 0 }).2 ts).1 = min ts.length (b.half_open_max_calls - 0) := ih1
  have h2 : (runChecks (true, { b with state := BreakerState.half_open, half_open_calls := 0 }).2 ts).2.state = BreakerState.half_open := ih2
  have h3 : (runChecks (true, { b with state := BreakerState.half_open, half_open_calls := 0 }).2 ts).2.half_open_calls = min (0 + ts.length) b.half_open_max_calls := ih3
  have h4 : (runChecks (true, { b with state := BreakerState.half_open, half_open_calls := 0 }).2 ts).2.half_open_max_calls = b.half_open_max_calls := ih4
  refine ⟨rfl, rfl, by omega, h2, by omega, ?_⟩
  intro hlen t
  rw [check_half_open_reject _ t h2 (by omega)]

theorem half_open_probe_budget_witness :
    (check_circuit_breaker { state := .opened, failure_count := 5, last_failure_time := 0 }
        (100 : ℚ)).1 = true ∧
    (runChecks (check_circuit_breaker
        { state := .opened, failure_count := 5, last_failure_time := 0 } (100 : ℚ)).2
        [100, 100, 100]).1 ≤ 3 := by
  have h := half_open_probe_budget
    { state := .opened, failure_count := 5, last_failure_time := 0 } 100 rfl rfl
    (by norm_num) [100, 100, 100]
  exact ⟨h.1, h.2.2.1⟩

/-- Claim C9 counterexample: from a breaker that is `open` with its recovery
timeout elapsed, four consecutive admission checks are all admitted while the
breaker sits in `half_open` the whole time — no transition to `open` or
`closed` occurs — refuting the bound of 3 admissions from the transition into
`half_open`.  (The transition check itself is admitted without consuming
probe budget.) -/
theorem half_open_admits_four :
    (runChecks { state := .opened, failure_count := 5, last_failure_time := 0 }
        [100, 100, 100, 100]).1 = 4 ∧
    (runChecks { state := .opened, failure_count := 5, last_failure_time := 0 }
        [100]).2.state = .half_open ∧
    (runChecks { state := .opened, failure_count := 5, last_failure_time := 0 }
        [100, 100]).2.state = .half_open ∧
    (runChecks { state := .opened, failure_count := 5, last_failure_time := 0 }
        [100, 100, 100]).2.state = .half_open ∧
    (runChecks { state := .opened, failure_count := 5, last_failure_time := 0 }
        [100, 100, 100, 100]).2.state = .half_open := by
  have c1 : check_circuit_breaker
      { state := .opened, failure_count := 5, last_failure_time := 0 } 100 =
      (true, { state := .half_open, failure_count := 5, last_failure_time := 0 }) :=
    check_opened_recover _ _ rfl (by norm_num)
  have c2 : check_circuit_breaker
      { state := .half_open, failure_count := 5, last_failure_time := 0 } 100 =
      (true, { state := .half_open, failure_count := 5, last_failure_time := 0, half_open_calls := 1 }) :=
    check_half_open_grant _ _ rfl (by decide)
  have c3 : check_circuit_breaker
      { state := .half_open, failure_count := 5, last_failure_time := 0, half_open_calls := 1 } 100 =
      (true, { state := .half_open, failure_count := 5, last_failure_time := 0, half_open_calls := 2 }) :=
    check_half_open_grant _ _ rfl (by decide)
  have c4 : check_circuit_breaker
      { state := .half_open, failure_count := 5, last_failure_time := 0, half_open_calls := 2 } 100 =
      (true, { state := .half_open, failure_count := 5, last_failure_time := 0, half_open_calls := 3 }) :=
    check_half_open_grant _ _ rfl (by decide)
  simp only [runChecks, c1, c2, c3, c4]
  decide

/-! ### Proxy model (`proxy_config.py`) -/

/-- `ProxyType` from `proxy_config.py`. -/
inductive ProxyType
  | http
  | https
  | socks4
  | socks5
  | vpn
  deriving DecidableEq, Repr

/-- `ProxyProvider` from `proxy_config.py`. -/
inductive ProxyProvider
  | pia
  | bright_data
  | smartproxy
  | oxylabs
  | residential
  | datacenter
  | mobile
  deriving DecidableEq, Repr

/-- `ProxyStatus` from `proxy_config.py`. -/
inductive ProxyStatus
  | active
  | inactive
  | blocked
  | rate_limited
  | failed
  deriving DecidableEq, Repr

/-- The `value` string of a `ProxyType` member. -/
def proxyTypeValue : ProxyType → String
  | .http => "http"
  | .https => "https"
  | .socks4 => "socks4"
  | .socks5 => "socks5"
  | .vpn => "vpn"

/-- `ProxyConfig` from `proxy_config.py` (pydantic defaults preserved). -/
structure ProxyConfig where
  host : String
  port : Nat
  proxy_type : ProxyType
  provider : ProxyProvider
  username : Option String := none
  password : Option String := none
  country : Option String := none
  region : Option String := none
  city : Option String := none
  status : ProxyStatus := .active
  health_score : ℚ := 1
  success_rate : ℚ := 1
  average_response_time : Option ℚ := none
  total_requests : Nat := 0
  failed_requests : Nat := 0
  deriving DecidableEq, Repr

/-- `ProxyConfig.update_health_score` (proxy_config.py lines 93-106). -/
def update_health_score (p : ProxyConfig) (success : Bool) : ProxyConfig :=
  let total := p.total_requests + 1
  let failed := p.failed_requests + (if success then 0 else 1)
  { p with
    total_requests := total,
    failed_requests := failed,
    success_rate := ((total : ℚ) - (failed : ℚ)) / (total : ℚ),
    health_score :=
      if success then min 1 (p.health_score + 0.01) else max 0 (p.health_score - 0.05) }

/-! ### Proxy rotator (`proxy_rotator.py`) -/

/-- `RotationStrategy` from `proxy_rotator.py`. -/
inductive RotationStrategy
  | round_robin
  | least_used
  | health_based
  | random
  | sticky_session
  | geographic
  deriving DecidableEq, Repr

/-- `ProxyPool` dataclass from `proxy_rotator.py`. -/
structure ProxyPool where
  name : String
  proxies : List ProxyConfig
  strategy : RotationStrategy
  health_check_interval : Nat := 300
  max_concurrent_per_proxy : Nat := 5
  session_timeout : ℚ := 1800
  deriving Repr

/-- One entry of `active_sessions`: the dict written by `get_proxy`
(`duration` is read back with `.get("duration", pool.session_timeout)`,
hence optional). -/
structure StickySession where
  proxy_id : String
  created_at : ℚ
  duration : Option ℚ := none
  requests : Nat := 0
  deriving DecidableEq, Repr

/-- One proxy-stats dict (all counters are read with `.get(key, 0)`, so the
defaults are 0/empty). -/
structure ProxyStats where
  total_requests : Nat := 0
  current_requests : Nat := 0
  last_used : Option ℚ := none
  completed_requests : Nat := 0
  successful_requests : Nat := 0
  failed_requests : Nat := 0
  recent_failures : Nat := 0
  response_times : List ℚ := []
  avg_response_time : Option ℚ := none
  deriving DecidableEq, Repr

/-- The events fed to `ProxyRotator._update_proxy_stats`. -/
inductive StatsEvent
  | selected (now : ℚ)
  | released
  | request_completed (success : Bool) (response_time : Option ℚ)

/-- The response-time bookkeeping of `_update_proxy_stats` (append, keep the
last 100, recompute the average). -/
def pushResponseTime (st : ProxyStats) (t : ℚ) : ProxyStats :=
  let rts0 := st.response_times ++ [t]
  let rts := if 100 < rts0.length then rts0.drop (rts0.length - 100) else rts0
  { st with
    response_times := rts,
    avg_response_time := some (rts.sum / (rts.length : ℚ)) }

/-- `ProxyRotator._update_proxy_stats` (lines 415-451).  `max(0, n - 1)` on
Python ints coincides with truncated subtraction on `Nat`.  Python skips the
response-time update when `data.get("response_time")` is falsy, i.e. absent
or equal to 0.0. -/
def update_proxy_stats (st : ProxyStats) : StatsEvent → ProxyStats
  | .selected now =>
    { st with
      total_requests := st.total_requests + 1,
      current_requests := st.current_requests + 1, last_used := some now }
  | .released => { st with current_requests := st.current_requests - 1 }
  | .request_completed success rt =>
    let st1 := { st with completed_requests := st.completed_requests + 1 }
    let st2 :=
      if success then
        { st1 with
          successful_requests := st1.successful_requests + 1,
          recent_failures := st1.recent_failures - 1 }
      else
        { st1 with
          failed_requests := st1.failed_requests + 1,
          recent_failures := st1.recent_failures + 1 }
    match rt with
    | some t => if t = 0 then st2 else pushResponseTime st2 t
    | none => st2

/-- The in-memory state of a `ProxyRotator` relevant to this layer: the pool
map, the sticky-session map and the per-proxy stats store (the Redis
key-value store holding `proxy_stats:*`, modelled as a total map with the
empty-dict default). -/
structure ProxyRotator where
  pools : String → Option ProxyPool
  active_sessions : String → Option StickySession
  stats : String → ProxyStats

/-- `ProxyRotator._get_proxy_id` (line 453-455). -/
def get_proxy_id (p : ProxyConfig) : String :=
  p.host ++ ":" ++ toString p.port ++ ":" ++ proxyTypeValue p.proxy_type

/-- Association-list country histogram used by the geographic strategy
(insertion-ordered, like the Python dict). -/
def bumpCountry : List (String × Nat) → String → List (String × Nat)
  | [], c => [(c, 1)]
  | (k, n) :: rest, c =>
    if k = c then (k, n + 1) :: rest else (k, n) :: bumpCountry rest c

def countryCounts (ps : List ProxyConfig) : List (String × Nat) :=
  ps.foldl (fun acc p => bumpCountry acc (p.country.getD "unknown")) []

/-- `ProxyRotator._select_proxy` (lines 165-224).  `pick` stands for
`random.choice` over proxies and `pickCountry` for `random.choice` over
country names; both return `none` only on an empty list (where the Python
call would raise, which no caller reaches). -/
def select_proxy (st : ProxyRotator) (proxies : List ProxyConfig)
    (strategy : RotationStrategy) (pick : List ProxyConfig → Option ProxyConfig)
    (pickCountry : List String → Option String) : Option ProxyConfig :=
  match strategy with
  | .random => pick proxies
  | .round_robin =>
    match (proxies.map (fun p => (st.stats (get_proxy_id p)).total_requests)).min? with
    | none => none
    | some m =>
      pick (proxies.filter (fun p => (st.stats (get_proxy_id p)).total_requests = m))
  | .least_used =>
    match (proxies.map (fun p => (st.stats (get_proxy_id p)).current_requests)).min? with
    | none => none
    | some m =>
      pick (proxies.filter (fun p => (st.stats (get_proxy_id p)).current_requests = m))
  | .health_based =>
    (proxies.foldl
      (fun best p =>
        if p.health_score * 0.7 + p.success_rate * 0.3 > best.2 then
          (some p, p.health_score * 0.7 + p.success_rate * 0.3)
        else best)
      ((none : Option ProxyConfig), (-1 : ℚ))).1
  | .geographic =>
    match ((countryCounts proxies).map (fun kv => kv.2)).min? with
    | none => none
    | some m =>
      match pickCountry
          (((countryCounts proxies).filter (fun kv => kv.2 = m)).map (fun kv => kv.1)) with
      | none => none
      | some c => pick (proxies.filter (fun p => p.country.getD "unknown" = c))
  | .sticky_session => pick proxies

/-- The sticky-session dict written by `get_proxy`: Python
`sticky_duration or pool.session_timeout` falls back on `None` and on `0`. -/
def stickyDurationValue (sticky_duration : Option ℚ) (session_timeout : ℚ) : ℚ :=
  match sticky_duration with
  | some d => if d = 0 then session_timeout else d
  | none => session_timeout

/-- `ProxyRotator.get_proxy` (lines 106-163). -/
def get_proxy (st : ProxyRotator) (pool_name : String) (session_id : Option String)
    (country : Option String) (sticky_duration : Option ℚ) (now : ℚ)
    (pick : List ProxyConfig → Option ProxyConfig)
    (pickCountry : List String → Option String) : Option ProxyConfig × ProxyRotator :=
  match st.pools pool_name with
  | none => (none, st)
  | some pool =>
    match
      (match session_id with
       | none => none
       | some sid =>
         match st.active_sessions sid with
         | none => none
         | some sess =>
           if now - sess.created_at < sess.duration.getD pool.session_timeout then
             match pool.proxies.find? (fun p => get_proxy_id p = sess.proxy_id) with
             | none => none
             | some p => if p.status = .active then some p else none
           else none : Option ProxyConfig) with
    | some p => (some p, st)
    | none =>
      let avail :=
        match country with
        | none => pool.proxies.filter (fun p => p.status = .active)
        | some c =>
          (pool.proxies.filter (fun p => p.status = .active)).filter
            (fun p =>
              match p.country with
              | some pc => pc.toLower = c.toLower
              | none => false)
      if avail.isEmpty then (none, st)
      else
        match select_proxy st avail pool.strategy pick pickCountry with
        | none => (none, st)
        | some proxy =>
          let st1 :=
            match session_id with
            | none => st
            | some sid =>
              { st with
                active_sessions := fun s =>
                  if s = sid then
                    some
                      { proxy_id := get_proxy_id proxy, created_at := now, duration := some (stickyDurationValue sticky_duration pool.session_timeout), requests := 0 }
                  else st.active_sessions s }
          (some proxy,
            { st1 with
              stats := fun s =>
                if s = get_proxy_id proxy then
                  update_proxy_stats (st1.stats (get_proxy_id proxy)) (.selected now)
                else st1.stats s })

/-- The stats part of `ProxyRotator.release_proxy`. -/
def releaseStats (st : ProxyRotator) (proxy : ProxyConfig) : ProxyRotator :=
  { st with
    stats := fun s =>
      if s = get_proxy_id proxy then
        update_proxy_stats (st.stats (get_proxy_id proxy)) .released
      else st.stats s }

/-- `ProxyRotator.release_proxy` (lines 226-239): updates the stats and, when
a session id is supplied and present, deletes the sticky entry. -/
def release_proxy (st : ProxyRotator) (proxy : ProxyConfig)
    (session_id : Option String) : ProxyRotator :=
  match session_id with
  | none => releaseStats st proxy
  | some sid =>
    match (releaseStats st proxy).active_sessions sid with
    | none => releaseStats st proxy
    | some _ =>
      { releaseStats st proxy with
        active_sessions := fun s =>
          if s = sid then none else (releaseStats st proxy).active_sessions s }

/-- The status thresholds of `ProxyRotator.report_proxy_result`
(lines 253-261). -/
def reportStatusOf (h : ℚ) : ProxyStatus :=
  if h < 0.3 then .blocked
  else if h < 0.5 then .rate_limited
  else .active

/-- `ProxyRotator.report_proxy_result` (lines 241-267): update the proxy's
health, record the completed request in the stats store, then re-derive the
proxy's status from the new health score. -/
def report_proxy_result (st : ProxyRotator) (proxy : ProxyConfig) (success : Bool)
    (response_time : Option ℚ) : ProxyConfig × ProxyRotator :=
  ({ update_health_score proxy success with
      status := reportStatusOf (update_health_score proxy success).health_score },
    { st with
      stats := fun s =>
        if s = get_proxy_id proxy then
          update_proxy_stats (st.stats (get_proxy_id proxy))
            (.request_completed success response_time)
        else st.stats s })

/-- The status thresholds of `ProxyRotator._health_check_pool`
(lines 332-352). -/
def sweepStatusOf (h : ℚ) : ProxyStatus :=
  if h < 0.2 then .blocked
  else if h < 0.4 then .rate_limited
  else .active

/-- `ProxyRotator._health_check_pool`: re-derive every proxy's status from
its health score, skipping proxies whose status is `failed`. -/
def health_check_pool (pool : ProxyPool) : ProxyPool :=
  { pool with
    proxies := pool.proxies.map (fun p =>
      if p.status = .failed then p
      else { p with status := sweepStatusOf p.health_score }) }

/-- Run a sequence of `report_proxy_result` calls against one proxy. -/
def runReports (st : ProxyRotator) (p : ProxyConfig) :
    List (Bool × Option ℚ) → ProxyConfig × ProxyRotator
  | [] => (p, st)
  | (success, rt) :: rest =>
    runReports (report_proxy_result st p success rt).2
      (report_proxy_result st p success rt).1 rest

/-! ### Claim theorems C5, C7, C8, C10 -/

theorem update_health_score_bounds (p : ProxyConfig) (success : Bool)
    (h0 : 0 ≤ p.health_score) (h1 : p.health_score ≤ 1) :
    0 ≤ (update_health_score p success).health_score ∧
      (update_health_score p success).health_score ≤ 1 := by
  cases success with
  | true =>
    constructor
    · show (0 : ℚ) ≤ min 1 (p.health_score + 0.01)
      exact le_min (by norm_num) (by linarith)
    · show min 1 (p.health_score + 0.01) ≤ 1
      exact min_le_left _ _
  | false =>
    constructor
    · show (0 : ℚ) ≤ max 0 (p.health_score - 0.05)
      exact le_max_left _ _
    · show max 0 (p.health_score - 0.05) ≤ 1
      exact max_le (by norm_num) (by linarith)

/-- Claim C5: along any sequence of `report_proxy_result` calls on a proxy
whose health score starts in [0,1], the health score stays in [0.0, 1.0]
(success adds 0.01 capped at 1, failure subtracts 0.05 floored at 0), and
after every call the proxy's status is exactly the threshold mapping of its
new health score (blocked below 0.3, rate_limited in [0.3, 0.5), active
otherwise). -/
theorem report_result_health_invariant :
    ∀ (ops : List (Bool × Option ℚ)) (st : ProxyRotator) (p : ProxyConfig),
      0 ≤ p.health_score → p.health_score ≤ 1 →
      0 ≤ (runReports st p ops).1.health_score ∧
      (runReports st p ops).1.health_score ≤ 1 ∧
      (ops ≠ [] →
        (runReports st p ops).1.status =
          reportStatusOf (runReports st p ops).1.health_score) := by
  intro ops
  induction ops with
  | nil =>
    intro st p h0 h1
    exact ⟨h0, h1, fun h => absurd rfl h⟩
  | cons op rest ih =>
    intro st p h0 h1
    obtain ⟨success, rt⟩ := op
    have hb := update_health_score_bounds p success h0 h1
    have hrun : runReports st p ((success, rt) :: rest) =
        runReports (report_proxy_result st p success rt).2
          (report_proxy_result st p success rt).1 rest := rfl
    rw [hrun]
    have hp1 : 0 ≤ (report_proxy_result st p success rt).1.health_score := hb.1
    have hp2 : (report_proxy_result st p success rt).1.health_score ≤ 1 := hb.2
    cases rest with
    | nil => exact ⟨hp1, hp2, fun _ => rfl⟩
    | cons op2 rest2 =>
      have h := ih (report_proxy_result st p success rt).2
        (report_proxy_result st p success rt).1 hp1 hp2
      exact ⟨h.1, h.2.1, fun _ => h.2.2 (List.cons_ne_nil _ _)⟩

/-- A concrete proxy record (pydantic defaults: status `active`, health 1). -/
def proxyW : ProxyConfig :=
  { host := "p1", port := 8080, proxy_type := .http, provider := .datacenter }

/-- A rotator with no pools, no sessions and empty stats. -/
def rotW : ProxyRotator :=
  { pools := fun _ => none, active_sessions := fun _ => none, stats := fun _ => {} }

theorem report_result_health_invariant_witness :
    0 ≤ (runReports rotW proxyW [(false, none)]).1.health_score ∧
    (runReports rotW proxyW [(false, none)]).1.health_score ≤ 1 ∧
    (runReports rotW proxyW [(false, none)]).1.status =
      reportStatusOf (runReports rotW proxyW [(false, none)]).1.health_score := by
  have h := report_result_health_invariant [(false, none)] rotW proxyW
    (by norm_num [proxyW]) (by norm_num [proxyW])
  exact ⟨h.1, h.2.1, h.2.2 (List.cons_ne_nil _ _)⟩

/-- Claim C8 counterexample: the report-result path and the background health
sweep derive different statuses from the same health score — at health score
0.25 the report path yields `blocked` (threshold 0.3) while the sweep yields
`rate_limited` (threshold 0.2), so the two derivation functions are not
equal. -/
theorem sweep_report_thresholds_differ :
    reportStatusOf 0.25 = .blocked ∧
    sweepStatusOf 0.25 = .rate_limited ∧
    ProxyStatus.blocked ≠ ProxyStatus.rate_limited ∧
    (health_check_pool
        { name := "default",
          proxies := [{ host := "p1", port := 8080, proxy_type := .http, provider := .datacenter, health_score := 0.25 }],
          strategy := .random }).proxies.map (fun p => p.status) = [.rate_limited] := by
  refine ⟨by norm_num [reportStatusOf], by norm_num [sweepStatusOf], by decide, ?_⟩
  norm_num [health_check_pool, sweepStatusOf]
  rw [if_neg (show ¬ (ProxyStatus.active = ProxyStatus.failed) by decide)]

/-- Claim C8 (amended): the sweep thresholds are 0.2/0.4 while the
report-result thresholds are 0.3/0.5, so the two status derivations agree on
a health score exactly when it lies below 0.2, in [0.3, 0.4), or at or above
0.5 — and disagree on [0.2, 0.3) (`blocked` vs `rate_limited`) and on
[0.4, 0.5) (`rate_limited` vs `active`). -/
theorem status_derivations_agree_iff (h : ℚ) :
    sweepStatusOf h = reportStatusOf h ↔
      (h < 0.2 ∨ (0.3 ≤ h ∧ h < 0.4) ∨ 0.5 ≤ h) := by
  unfold sweepStatusOf reportStatusOf
  by_cases h2 : h < 0.2
  · rw [if_pos h2, if_pos (show h < 0.3 by linarith)]
    exact iff_of_true rfl (Or.inl h2)
  · by_cases h3 : h < 0.3
    · rw [if_neg h2, if_pos (show h < 0.4 by linarith), if_pos h3]
      exact iff_of_false (by decide) (by rintro (hx | ⟨hx, hy⟩ | hx) <;> linarith)
    · by_cases h4 : h < 0.4
      · rw [if_neg h2, if_pos h4, if_neg h3, if_pos (show h < 0.5 by linarith)]
        exact iff_of_true rfl (Or.inr (Or.inl ⟨not_lt.mp h3, h4⟩))
      · by_cases h5 : h < 0.5
        · rw [if_neg h2, if_neg h4, if_neg h3, if_pos h5]
          exact iff_of_false (by decide) (by rintro (hx | ⟨hx, hy⟩ | hx) <;> linarith)
        · rw [if_neg h2, if_neg h4, if_neg h3, if_neg h5]
          exact iff_of_true rfl (Or.inr (Or.inr (not_lt.mp h5)))

/-- Claim C10: `get_proxy` on a pool name absent from the pool map returns no
proxy and leaves the rotator state — in particular the sticky-session map and
the proxy statistics — completely unchanged (and, being a total function of
the embedding, raises nothing). -/
theorem get_proxy_unknown_pool (st : ProxyRotator) (pool_name : String)
    (session_id : Option String) (country : Option String) (sticky_duration : Option ℚ)
    (now : ℚ) (pick : List ProxyConfig → Option ProxyConfig)
    (pickCountry : List String → Option String) (h : st.pools pool_name = none) :
    get_proxy st pool_name session_id country sticky_duration now pick pickCountry =
      (none, st) := by
  unfold get_proxy
  rw [h]

theorem get_proxy_unknown_pool_witness :
    get_proxy rotW "default" none none none 0 (fun _ => none) (fun _ => none) =
      (none, rotW) :=
  get_proxy_unknown_pool rotW "default" none none none 0 (fun _ => none) (fun _ => none) rfl

/-- The sticky entry used in the C7 scenario. -/
def sessC7 : StickySession :=
  { proxy_id := "h:8080:http", created_at := 0, duration := some 1800 }

/-- A rotator with one sticky session (`"s1"`). -/
def rotC7 : ProxyRotator :=
  { pools := fun _ => none,
    active_sessions := fun s => if s = "s1" then some sessC7 else none,
    stats := fun _ => {} }

/-- Claim C7 counterexample: `release_proxy` with a session id does **not**
leave the sticky-session map unchanged — the sticky entry for that session id
is deleted by the call, refuting that it still exists afterwards and persists
until TTL expiry. -/
theorem release_proxy_removes_sticky :
    rotC7.active_sessions "s1" = some sessC7 ∧
    (release_proxy rotC7 proxyW (some "s1")).active_sessions "s1" = none := by
  exact ⟨rfl, rfl⟩

theorem releaseStats_sessions (st : ProxyRotator) (p : ProxyConfig) :
    (releaseStats st p).active_sessions = st.active_sessions := rfl

/-- Claim C7 (amended): `release_proxy(proxy, some sid)` decrements the
proxy's in-flight counter (floored at 0) and **removes** the sticky entry for
`sid` when one exists; entries for other session ids, stats of other proxies
and the pool map are unchanged, and `release_proxy` without a session id
leaves the sticky-session map unchanged. -/
theorem release_proxy_effects (st : ProxyRotator) (p : ProxyConfig) (sid : String) :
    (release_proxy st p (some sid)).active_sessions sid = none ∧
    (∀ s, s ≠ sid → (release_proxy st p (some sid)).active_sessions s =
      st.active_sessions s) ∧
    ((release_proxy st p (some sid)).stats (get_proxy_id p)).current_requests =
      (st.stats (get_proxy_id p)).current_requests - 1 ∧
    (∀ q, q ≠ get_proxy_id p → (release_proxy st p (some sid)).stats q = st.stats q) ∧
    (∀ s, (release_proxy st p none).active_sessions s = st.active_sessions s) ∧
    (release_proxy st p (some sid)).pools = st.pools := by
  simp only [release_proxy, releaseStats_sessions]
  cases hl : st.active_sessions sid with
  | none =>
    refine ⟨hl, fun s _ => rfl, ?_, fun q hq => ?_, fun _ => trivial, rfl⟩
    · simp [releaseStats, update_proxy_stats]
    · simp [releaseStats, hq]
  | some sess =>
    refine ⟨by simp, fun s hs => ?_, ?_, fun q hq => ?_, fun _ => trivial, rfl⟩
    · simp [hs, releaseStats_sessions]
    · simp [releaseStats, update_proxy_stats]
    · simp [releaseStats, hq]

theorem release_proxy_effects_witness :
    (release_proxy rotC7 proxyW (some "s1")).active_sessions "s1" = none ∧
    (release_proxy rotC7 proxyW (some "s1")).active_sessions "s2" =
      rotC7.active_sessions "s2" := by
  have h := release_proxy_effects rotC7 proxyW "s1"
  exact ⟨h.1, h.2.1 "s2" (by decide)⟩

/-! ### Extraction orchestrator (`extraction_orchestrator.py`) -/

/-- What one call `self.services[method].scrape(request)` can do: return a
result or raise an exception (name and message). -/
inductive ServiceOutcome
  | ok (result : ScrapeResult)
  | exc (ename emsg : String)

/-- One entry of `performance_metrics` (created on first use in
`_update_performance_metrics`). -/
structure PerfMetrics where
  requests : Nat := 0
  successful_requests : Nat := 0
  total_response_time : ℚ := 0
  success_rate : ℚ := 0
  avg_response_time : ℚ := 0
  deriving DecidableEq, Repr

/-- `ExtractionOrchestrator._update_performance_metrics` (lines 323-346). -/
def update_performance_metrics (m : Option PerfMetrics) (response_time : ℚ)
    (success : Bool) : PerfMetrics :=
  let base := m.getD {}
  { requests := base.requests + 1,
    successful_requests := base.successful_requests + (if success then 1 else 0),
    total_response_time := base.total_response_time + response_time,
    success_rate := ((base.successful_requests + (if success then 1 else 0) : Nat) : ℚ) /
      ((base.requests + 1 : Nat) : ℚ),
    avg_response_time := (base.total_response_time + response_time) /
      ((base.requests + 1 : Nat) : ℚ) }

/-- The orchestrator state after `initialize`: one breaker and (optionally)
one metrics entry per backend identifier, plus the optional proxy config
forwarded to the services. -/
structure Orchestrator where
  breakers : ScrapeMethod → CircuitBreaker
  metrics : ScrapeMethod → Option PerfMetrics
  proxy_config : Option ProxyConfig := none

/-- Write one breaker back into the orchestrator's breaker map. -/
def setBreaker (st : Orchestrator) (m : ScrapeMethod) (b : CircuitBreaker) : Orchestrator :=
  { st with breakers := fun m' => if m' = m then b else st.breakers m' }

/-- Write one metrics entry back into the metrics map. -/
def setMetrics (st : Orchestrator) (m : ScrapeMethod) (pm : PerfMetrics) : Orchestrator :=
  { st with metrics := fun m' => if m' = m then some pm else st.metrics m' }

/-- `ExtractionOrchestrator._is_method_available`: `method in self.services`,
and the services dict built in `__init__` contains all three methods. -/
def is_method_available (_ : ScrapeMethod) : Bool := true

/-- `ExtractionOrchestrator._get_fallback_method` (lines 265-272). -/
def get_fallback_method (req : ScrapeRequest) : ScrapeMethod :=
  if req.method = .scrapy then .pydoll
  else if req.method = .pydoll then .playwright
  else .scrapy

/-- The outcome of one `extract` call: the returned result, the caller's
request object after the call (the code mutates `scrape_request.method` in
place), the orchestrator state, and the list of service `scrape` invocations
performed. -/
structure ExtractOutput where
  result : ScrapeResult
  request : ScrapeRequest
  state : Orchestrator
  invocations : List (ScrapeMethod × ScrapeRequest)

/-- The early `return` of `extract` when the breaker gate rejects the method
and its fallback (lines 91-96). -/
def circuitBreakerFailure (req : ScrapeRequest) (st : Orchestrator) : ExtractOutput :=
  { result :=
      { request_id := requestIdStr req, status := .failed,
        error_message := some "All extraction methods unavailable",
        error_type := some "CircuitBreakerError" },
    request := req, state := st, invocations := [] }

/-- The body of `extract` from line 102 on: set `scrape_request.method`,
call the service inside `try`, and record metrics and breaker updates on
success, or breaker update and a failed result on an exception.  `t0` and
`t1` model `time.time()` at the start and at the end of the call; the
`set_proxy_config` forwarding touches only the external service. -/
def extractInvoke (req : ScrapeRequest) (method : ScrapeMethod) (st : Orchestrator)
    (svc : ScrapeMethod → ScrapeRequest → ServiceOutcome) (t0 t1 : ℚ) : ExtractOutput :=
  match svc method { req with method := method } with
  | .ok r =>
    { result := r,
      request := { req with method := method },
      state := setBreaker
        (setMetrics st method
          (update_performance_metrics (st.metrics method) (t1 - t0)
            (decide (r.status = .success))))
        method
        (update_circuit_breaker (st.breakers method) (decide (r.status = .success)) t1),
      invocations := [(method, { req with method := method })] }
  | .exc en em =>
    { result :=
        { request_id := requestIdStr req, status := .failed,
          error_message := some em, error_type := some en,
          response_time := some (t1 - t0) },
      request := { req with method := method },
      state := setBreaker st method (update_circuit_breaker (st.breakers method) false t1),
      invocations := [(method, { req with method := method })] }

/-- The breaker gate and dispatch of `extract` (lines 83-136), for an already
resolved effective method: admit the method, otherwise try the fallback
(checking its breaker only when it differs), otherwise fail. -/
def extractGate (st : Orchestrator) (req : ScrapeRequest)
    (svc : ScrapeMethod → ScrapeRequest → ServiceOutcome) (t0 t1 : ℚ)
    (method : ScrapeMethod) : ExtractOutput :=
  if (check_circuit_breaker (st.breakers method) t0).1 then
    extractInvoke req method
      (setBreaker st method (check_circuit_breaker (st.breakers method) t0).2) svc t0 t1
  else if get_fallback_method req = method then
    circuitBreakerFailure req
      (setBreaker st method (check_circuit_breaker (st.breakers method) t0).2)
  else
    let st1 := setBreaker st method (check_circuit_breaker (st.breakers method) t0).2
    if (check_circuit_breaker (st1.breakers (get_fallback_method req)) t0).1 then
      extractInvoke req (get_fallback_method req)
        (setBreaker st1 (get_fallback_method req)
          (check_circuit_breaker (st1.breakers (get_fallback_method req)) t0).2) svc t0 t1
    else
      circuitBreakerFailure req
        (setBreaker st1 (get_fallback_method req)
          (check_circuit_breaker (st1.breakers (get_fallback_method req)) t0).2)

/-- `ExtractionOrchestrator.extract` (lines 74-136): resolve the effective
method (the SCRAPY-unavailable fallback, dead because every method is in
`self.services`), then run the breaker gate and dispatch. -/
def extract (st : Orchestrator) (req : ScrapeRequest)
    (svc : ScrapeMethod → ScrapeRequest → ServiceOutcome) (t0 t1 : ℚ) : ExtractOutput :=
  extractGate st req svc t0 t1
    (if req.method = .scrapy ∧ ¬ (is_method_available req.method = true) then
      get_fallback_method req
    else req.method)

/-! ### Claim theorems C1 and C6 -/

theorem extract_eq_gate (st : Orchestrator) (req : ScrapeRequest)
    (svc : ScrapeMethod → ScrapeRequest → ServiceOutcome) (t0 t1 : ℚ) :
    extract st req svc t0 t1 = extractGate st req svc t0 t1 req.method := by
  unfold extract
  rw [if_neg]
  rintro ⟨_, h⟩
  exact h rfl

theorem setBreaker_get_ne (st : Orchestrator) (m m' : ScrapeMethod) (b : CircuitBreaker)
    (h : m' ≠ m) : (setBreaker st m b).breakers m' = st.breakers m' := by
  simp [setBreaker, h]

theorem extractInvoke_request (req : ScrapeRequest) (method : ScrapeMethod)
    (st : Orchestrator) (svc : ScrapeMethod → ScrapeRequest → ServiceOutcome) (t0 t1 : ℚ) :
    (extractInvoke req method st svc t0 t1).request = { req with method := method } := by
  unfold extractInvoke
  cases svc method { req with method := method } <;> rfl

theorem extractInvoke_exc_result (req : ScrapeRequest) (method : ScrapeMethod)
    (st : Orchestrator) (svc : ScrapeMethod → ScrapeRequest → ServiceOutcome) (t0 t1 : ℚ)
    (en em : String) (h : svc method { req with method := method } = .exc en em) :
    (extractInvoke req method st svc t0 t1).result.status = .failed ∧
    (extractInvoke req method st svc t0 t1).result.error_message = some em ∧
    (extractInvoke req method st svc t0 t1).result.error_type = some en ∧
    (extractInvoke req method st svc t0 t1).result.response_time = some (t1 - t0) := by
  unfold extractInvoke
  rw [h]
  exact ⟨rfl, rfl, rfl, rfl⟩

/-- The set of breakers consulted and error fields produced when every
breaker is open within its recovery timeout, for an arbitrary effective
method. -/
theorem extractGate_all_open (st : Orchestrator) (req : ScrapeRequest)
    (svc : ScrapeMethod → ScrapeRequest → ServiceOutcome) (t0 t1 : ℚ)
    (method : ScrapeMethod)
    (hopen : ∀ m, (st.breakers m).state = .opened ∧
      ¬ t0 - (st.breakers m).last_failure_time > (st.breakers m).recovery_timeout) :
    (extractGate st req svc t0 t1 method).result.status = .failed ∧
    (extractGate st req svc t0 t1 method).result.error_type = some "CircuitBreakerError" ∧
    (extractGate st req svc t0 t1 method).result.error_message =
      some "All extraction methods unavailable" ∧
    (extractGate st req svc t0 t1 method).invocations = [] := by
  have hc : ∀ m, check_circuit_breaker (st.breakers m) t0 = (false, st.breakers m) :=
    fun m => check_opened_wait _ _ (hopen m).1 (hopen m).2
  unfold extractGate
  rw [hc method]
  rw [if_neg (by simp)]
  by_cases hfb : get_fallback_method req = method
  · rw [if_pos hfb]
    exact ⟨rfl, rfl, rfl, rfl⟩
  · rw [if_neg hfb]
    have hb2 : (setBreaker st method ((false : Bool), st.breakers method).2).breakers
        (get_fallback_method req) = st.breakers (get_fallback_method req) :=
      setBreaker_get_ne _ _ _ _ hfb
    simp only [hb2, hc (get_fallback_method req)]
    rw [if_neg (by simp)]
    exact ⟨rfl, rfl, rfl, rfl⟩

/-- Every exit of the breaker gate yields either a service invocation outcome
or the circuit-breaker failure result; with a service that always throws,
the returned result is always `failed`, and when a service call did happen
its exception text is carried in the result. -/
theorem extractGate_exc (st : Orchestrator) (req : ScrapeRequest) (t0 t1 : ℚ)
    (method : ScrapeMethod) (en em : String)
    (svc : ScrapeMethod → ScrapeRequest → ServiceOutcome)
    (hsvc : ∀ m r, svc m r = .exc en em) :
    (extractGate st req svc t0 t1 method).result.status = .failed ∧
    ((extractGate st req svc t0 t1 method).invocations ≠ [] →
      (extractGate st req svc t0 t1 method).result.error_message = some em ∧
      (extractGate st req svc t0 t1 method).result.error_type = some en ∧
      (extractGate st req svc t0 t1 method).result.response_time = some (t1 - t0)) := by
  unfold extractGate
  by_cases hc0 : (check_circuit_breaker (st.breakers method) t0).1 = true
  · rw [if_pos hc0]
    have h := extractInvoke_exc_result req method
      (setBreaker st method (check_circuit_breaker (st.breakers method) t0).2) svc t0 t1
      en em (hsvc _ _)
    exact ⟨h.1, fun _ => ⟨h.2.1, h.2.2.1, h.2.2.2⟩⟩
  · rw [if_neg hc0]
    by_cases hfb : get_fallback_method req = method
    · rw [if_pos hfb]
      exact ⟨rfl, fun h => absurd rfl h⟩
    · rw [if_neg hfb]
      by_cases hc1 : (check_circuit_breaker
          ((setBreaker st method (check_circuit_breaker (st.breakers method) t0).2).breakers
            (get_fallback_method req)) t0).1 = true
      · rw [if_pos hc1]
        have h := extractInvoke_exc_result req (get_fallback_method req)
          (setBreaker (setBreaker st method (check_circuit_breaker (st.breakers method) t0).2)
            (get_fallback_method req)
            (check_circuit_breaker
              ((setBreaker st method
                (check_circuit_breaker (st.breakers method) t0).2).breakers
                (get_fallback_method req)) t0).2)
          svc t0 t1 en em (hsvc _ _)
        exact ⟨h.1, fun _ => ⟨h.2.1, h.2.2.1, h.2.2.2⟩⟩
      · rw [if_neg hc1]
        exact ⟨rfl, fun h => absurd rfl h⟩

/-- Claim C1: `extract` is a total error boundary.  (1) If the service call
raises (modelled by an oracle that always returns an exception outcome), the
caller still receives a `failed` ExtractionResult — carrying the exception's
message, type and the elapsed time whenever a service call actually
happened.  (2) If every backend's breaker is open and within its recovery
timeout, `extract` returns the failed result with error kind
`"CircuitBreakerError"` (the code's error kind for all backends unavailable)
and message `"All extraction methods unavailable"`, and invokes no service. -/
theorem extract_error_boundary (st : Orchestrator) (req : ScrapeRequest) (t0 t1 : ℚ) :
    (∀ (en em : String) (svc : ScrapeMethod → ScrapeRequest → ServiceOutcome),
      (∀ m r, svc m r = .exc en em) →
      (extract st req svc t0 t1).result.status = .failed ∧
      ((extract st req svc t0 t1).invocations ≠ [] →
        (extract st req svc t0 t1).result.error_message = some em ∧
        (extract st req svc t0 t1).result.error_type = some en ∧
        (extract st req svc t0 t1).result.response_time = some (t1 - t0))) ∧
    ((∀ m, (st.breakers m).state = .opened ∧
        ¬ t0 - (st.breakers m).last_failure_time > (st.breakers m).recovery_timeout) →
      ∀ svc : ScrapeMethod → ScrapeRequest → ServiceOutcome,
        (extract st req svc t0 t1).result.status = .failed ∧
        (extract st req svc t0 t1).result.error_type = some "CircuitBreakerError" ∧
        (extract st req svc t0 t1).result.error_message =
          some "All extraction methods unavailable" ∧
        (extract st req svc t0 t1).invocations = []) := by
  constructor
  · intro en em svc hsvc
    rw [extract_eq_gate]
    exact extractGate_exc st req t0 t1 req.method en em svc hsvc
  · intro hopen svc
    rw [extract_eq_gate]
    exact extractGate_all_open st req svc t0 t1 req.method hopen

/-- An orchestrator whose three breakers are all open (last failure at time
0, recovery timeout 60). -/
def stAllOpen : Orchestrator :=
  { breakers := fun _ => { state := .opened, failure_count := 5, last_failure_time := 0 },
    metrics := fun _ => none }

/-- A request pinned to the scrapy backend. -/
def reqW : ScrapeRequest := { id := some "r1", url := "https://example.com", method := .scrapy }

theorem extract_error_boundary_witness :
    (extract stAllOpen reqW (fun _ _ => .exc "RuntimeError" "boom") 10 11).result.status =
      .failed ∧
    (extract stAllOpen reqW (fun _ _ => .exc "RuntimeError" "boom") 10 11).result.error_type =
      some "CircuitBreakerError" ∧
    (extract stAllOpen reqW (fun _ _ => .exc "RuntimeError" "boom") 10 11).invocations = [] := by
  have h := (extract_error_boundary stAllOpen reqW 10 11).2
    (fun m => ⟨rfl, by show ¬ ((10 : ℚ) - 0 > 60) ; norm_num⟩)
    (fun _ _ => .exc "RuntimeError" "boom")
  exact ⟨h.1, h.2.1, h.2.2.2⟩

/-- An orchestrator where only the scrapy breaker is open (within its
recovery timeout at time 10); pydoll and playwright are closed. -/
def stScrapyOpen : Orchestrator :=
  { breakers := fun m =>
      if m = .scrapy then { state := .opened, failure_count := 5, last_failure_time := 0 }
      else {},
    metrics := fun _ => none }

/-- A service oracle that always succeeds, echoing the request id. -/
def svcOk : ScrapeMethod → ScrapeRequest → ServiceOutcome :=
  fun _ r => .ok { request_id := requestIdStr r, status := .success }

/-- Claim C6 counterexample: `extract` does not leave the caller's request
unchanged — when the pinned backend's breaker rejects the call and the
fallback is taken, line 107 (`scrape_request.method = method`) overwrites the
request's method field in place: a request pinned to `scrapy` comes back
with method `pydoll`. -/
theorem extract_mutates_request_method :
    reqW.method = .scrapy ∧
    (extract stScrapyOpen reqW svcOk 10 11).request.method = .pydoll := by
  refine ⟨rfl, ?_⟩
  rw [extract_eq_gate]
  unfold extractGate
  have hc0 : check_circuit_breaker (stScrapyOpen.breakers reqW.method) 10 =
      (false, stScrapyOpen.breakers reqW.method) :=
    check_opened_wait _ _ rfl (show ¬ ((10 : ℚ) - 0 > 60) by norm_num)
  rw [hc0]
  rw [if_neg (by simp)]
  rw [if_neg (show ¬ (get_fallback_method reqW = reqW.method) by decide)]
  rw [if_pos (show (check_circuit_breaker
    ((setBreaker stScrapyOpen reqW.method ((false : Bool), stScrapyOpen.breakers reqW.method).2).breakers
      (get_fallback_method reqW)) 10).1 = true from rfl)]
  rw [extractInvoke_request]
  rfl

/-- Claim C6 (amended): `extract` returns the caller's request with every
field unchanged except possibly `method`, which the code overwrites in place
with the effective backend; in particular, whenever the request's own
backend is admitted by its breaker the request is returned entirely
unchanged. -/
theorem extract_request_frame (st : Orchestrator) (req : ScrapeRequest)
    (svc : ScrapeMethod → ScrapeRequest → ServiceOutcome) (t0 t1 : ℚ) :
    (∃ m : ScrapeMethod, (extract st req svc t0 t1).request = { req with method := m }) ∧
    ((check_circuit_breaker (st.breakers req.method) t0).1 = true →
      (extract st req svc t0 t1).request = req) := by
  rw [extract_eq_gate]
  constructor
  · unfold extractGate
    by_cases hc0 : (check_circuit_breaker (st.breakers req.method) t0).1 = true
    · rw [if_pos hc0, extractInvoke_request]
      exact ⟨req.method, rfl⟩
    · rw [if_neg hc0]
      by_cases hfb : get_fallback_method req = req.method
      · rw [if_pos hfb]
        exact ⟨req.method, rfl⟩
      · rw [if_neg hfb]
        by_cases hc1 : (check_circuit_breaker
            ((setBreaker st req.method
              (check_circuit_breaker (st.breakers req.method) t0).2).breakers
              (get_fallback_method req)) t0).1 = true
        · rw [if_pos hc1, extractInvoke_request]
          exact ⟨get_fallback_method req, rfl⟩
        · rw [if_neg hc1]
          exact ⟨req.method, rfl⟩
  · intro hc0
    unfold extractGate
    rw [if_pos hc0, extractInvoke_request]

/-- An orchestrator with every breaker closed and no metrics. -/
def stClosed : Orchestrator := { breakers := fun _ => {}, metrics := fun _ => none }

theorem extract_request_frame_witness :
    (check_circuit_breaker (stClosed.breakers reqW.method) 0).1 = true ∧
    (extract stClosed reqW svcOk 0 1).request = reqW :=
  ⟨rfl, (extract_request_frame stClosed reqW svcOk 0 1).2 rfl⟩

/-! ### Batch extraction (`extraction_orchestrator.py` lines 138-194) -/

/-- What one call `self.services[method].batch_scrape(requests)` can do. -/
inductive BatchOutcome
  | ok (results : List ScrapeResult)
  | exc (ename emsg : String)

/-- The `batch_scrape` wrapper each service implements (scrapy_service.py
lines 307-324, and the `gather(..., return_exceptions=True)` versions in
pydoll_service.py / playwright_service.py): one result per request in
request order, converting a raised exception into a failed result. -/
def serviceBatchScrape (scrape : ScrapeRequest → ServiceOutcome)
    (reqs : List ScrapeRequest) : List ScrapeResult :=
  reqs.map fun r =>
    match scrape r with
    | .ok res => res
    | .exc en em =>
      { request_id := requestIdStr r, status := .failed,
        error_message := some em, error_type := some en }

/-- The `value` string of a `ScrapeMethod` member. -/
def methodValue : ScrapeMethod → String
  | .scrapy => "scrapy"
  | .pydoll => "pydoll"
  | .playwright => "playwright"

/-- One step of the `method_groups` construction (lines 142-147): append the
request to its method's group, keeping dict insertion order. -/
def addToGroups : List (ScrapeMethod × List ScrapeRequest) → ScrapeRequest →
    List (ScrapeMethod × List ScrapeRequest)
  | [], r => [(r.method, [r])]
  | (m, rs) :: gs, r =>
    if r.method = m then (m, rs ++ [r]) :: gs else (m, rs) :: addToGroups gs r

/-- `method_groups`: requests grouped by method, in first-appearance order. -/
def groupByMethod (reqs : List ScrapeRequest) : List (ScrapeMethod × List ScrapeRequest) :=
  reqs.foldl addToGroups []

/-- The per-request error results for an unavailable/rejected method group
(lines 154-162). -/
def methodUnavailableResults (m : ScrapeMethod) (rs : List ScrapeRequest) :
    List ScrapeResult :=
  rs.map fun r =>
    { request_id := requestIdStr r, status := .failed,
      error_message := some ("Method " ++ methodValue m ++ " unavailable"),
      error_type := some "MethodUnavailableError" }

/-- The per-request error results when a batch call raises (lines 181-189). -/
def batchErrorResults (en em : String) (rs : List ScrapeRequest) : List ScrapeResult :=
  rs.map fun r =>
    { request_id := requestIdStr r, status := .failed,
      error_message := some em, error_type := some en }

/-- The per-result breaker updates after a successful batch call
(lines 174-176). -/
def updateBreakerForResults (st : Orchestrator) (m : ScrapeMethod)
    (results : List ScrapeResult) (now : ℚ) : Orchestrator :=
  results.foldl
    (fun s r => setBreaker s m
      (update_circuit_breaker (s.breakers m) (decide (r.status = .success)) now)) st

/-- The group loop of `batch_extract` (lines 149-193), processing the method
groups in order and appending each group's results to `all_results`. -/
def processGroups (svcB : ScrapeMethod → List ScrapeRequest → BatchOutcome) (now : ℚ) :
    Orchestrator → List (ScrapeMethod × List ScrapeRequest) →
    List ScrapeResult × Orchestrator
  | st, [] => ([], st)
  | st, (m, rs) :: gs =>
    if is_method_available m = true then
      let c := check_circuit_breaker (st.breakers m) now
      let st1 := setBreaker st m c.2
      if c.1 then
        match svcB m rs with
        | .ok results =>
          let st2 := updateBreakerForResults st1 m results now
          let rest := processGroups svcB now st2 gs
          (results ++ rest.1, rest.2)
        | .exc en em =>
          let st2 := setBreaker st1 m (update_circuit_breaker (st1.breakers m) false now)
          let rest := processGroups svcB now st2 gs
          (batchErrorResults en em rs ++ rest.1, rest.2)
      else
        let rest := processGroups svcB now st1 gs
        (methodUnavailableResults m rs ++ rest.1, rest.2)
    else
      let rest := processGroups svcB now st gs
      (methodUnavailableResults m rs ++ rest.1, rest.2)

/-- `ExtractionOrchestrator.batch_extract` (lines 138-194). -/
def batch_extract (st : Orchestrator) (reqs : List ScrapeRequest)
    (svcB : ScrapeMethod → List ScrapeRequest → BatchOutcome) (now : ℚ) :
    List ScrapeResult × Orchestrator :=
  processGroups svcB now st (groupByMethod reqs)

/-! ### Claim theorems C2 -/

theorem serviceBatchScrape_length (scrape : ScrapeRequest → ServiceOutcome)
    (rs : List ScrapeRequest) : (serviceBatchScrape scrape rs).length = rs.length := by
  simp [serviceBatchScrape]

theorem serviceBatchScrape_ids (scrape : ScrapeRequest → ServiceOutcome)
    (hid : ∀ r res, scrape r = .ok res → res.request_id = requestIdStr r)
    (rs : List ScrapeRequest) :
    (serviceBatchScrape scrape rs).map (fun r => r.request_id) = rs.map requestIdStr := by
  induction rs with
  | nil => rfl
  | cons r rs ih =>
    simp only [serviceBatchScrape, List.map_cons] at *
    congr 1
    · cases h : scrape r with
      | ok res => exact hid r res h
      | exc en em => rfl

theorem methodUnavailableResults_ids (m : ScrapeMethod) (rs : List ScrapeRequest) :
    (methodUnavailableResults m rs).map (fun r => r.request_id) = rs.map requestIdStr := by
  simp only [methodUnavailableResults, List.map_map]
  rfl

theorem methodUnavailableResults_length (m : ScrapeMethod) (rs : List ScrapeRequest) :
    (methodUnavailableResults m rs).length = rs.length := by
  simp [methodUnavailableResults]

theorem processGroups_ok_cons (svcB : ScrapeMethod → List ScrapeRequest → BatchOutcome)
    (now : ℚ) (st : Orchestrator) (m : ScrapeMethod) (rs : List ScrapeRequest)
    (gs : List (ScrapeMethod × List ScrapeRequest)) (results : List ScrapeResult)
    (hc : (check_circuit_breaker (st.breakers m) now).1 = true)
    (hok : svcB m rs = .ok results) :
    processGroups svcB now st ((m, rs) :: gs) =
      (results ++ (processGroups svcB now
          (updateBreakerForResults (setBreaker st m (check_circuit_breaker (st.breakers m) now).2)
            m results now) gs).1,
        (processGroups svcB now
          (updateBreakerForResults (setBreaker st m (check_circuit_breaker (st.breakers m) now).2)
            m results now) gs).2) := by
  simp only [processGroups]
  rw [if_pos (show is_method_available m = true from rfl), if_pos hc, hok]

theorem processGroups_reject_cons (svcB : ScrapeMethod → List ScrapeRequest → BatchOutcome)
    (now : ℚ) (st : Orchestrator) (m : ScrapeMethod) (rs : List ScrapeRequest)
    (gs : List (ScrapeMethod × List ScrapeRequest))
    (hc : (check_circuit_breaker (st.breakers m) now).1 = false) :
    processGroups svcB now st ((m, rs) :: gs) =
      (methodUnavailableResults m rs ++ (processGroups svcB now
          (setBreaker st m (check_circuit_breaker (st.breakers m) now).2) gs).1,
        (processGroups svcB now
          (setBreaker st m (check_circuit_breaker (st.breakers m) now).2) gs).2) := by
  simp only [processGroups]
  rw [if_pos (show is_method_available m = true from rfl), if_neg (by simp [hc])]

theorem processGroups_spec (sc : ScrapeMethod → ScrapeRequest → ServiceOutcome)
    (hid : ∀ m r res, sc m r = .ok res → res.request_id = requestIdStr r) (now : ℚ) :
    ∀ (gs : List (ScrapeMethod × List ScrapeRequest)) (st : Orchestrator),
      (processGroups (fun m rs => .ok (serviceBatchScrape (sc m) rs)) now st gs).1.map
          (fun r => r.request_id) =
        gs.flatMap (fun g => g.2.map requestIdStr) ∧
      (processGroups (fun m rs => .ok (serviceBatchScrape (sc m) rs)) now st gs).1.length =
        (gs.map (fun g => g.2.length)).sum := by
  intro gs
  induction gs with
  | nil =>
    intro st
    exact ⟨rfl, rfl⟩
  | cons g gs ih =>
    obtain ⟨m, rs⟩ := g
    intro st
    by_cases hc : (check_circuit_breaker (st.breakers m) now).1 = true
    · rw [processGroups_ok_cons _ now st m rs gs (serviceBatchScrape (sc m) rs) hc rfl]
      obtain ⟨ih1, ih2⟩ := ih (updateBreakerForResults
        (setBreaker st m (check_circuit_breaker (st.breakers m) now).2) m
        (serviceBatchScrape (sc m) rs) now)
      constructor
      · rw [List.map_append, ih1, serviceBatchScrape_ids (sc m) (hid m) rs, List.flatMap_cons]
      · rw [List.length_append, ih2, serviceBatchScrape_length, List.map_cons, List.sum_cons]
    · rw [processGroups_reject_cons _ now st m rs gs (by simpa using hc)]
      obtain ⟨ih1, ih2⟩ := ih (setBreaker st m (check_circuit_breaker (st.breakers m) now).2)
      constructor
      · rw [List.map_append, ih1, methodUnavailableResults_ids, List.flatMap_cons]
      · rw [List.length_append, ih2, methodUnavailableResults_length, List.map_cons,
          List.sum_cons]

theorem addToGroups_size (r : ScrapeRequest) :
    ∀ gs : List (ScrapeMethod × List ScrapeRequest),
      ((addToGroups gs r).map (fun g => g.2.length)).sum =
        ((gs.map (fun g => g.2.length)).sum) + 1 := by
  intro gs
  induction gs with
  | nil => simp [addToGroups]
  | cons g gs ih =>
    obtain ⟨m, rs⟩ := g
    simp only [addToGroups]
    by_cases h : r.method = m
    · rw [if_pos h]
      simp only [List.map_cons, List.sum_cons, List.length_append]
      simp
      omega
    · rw [if_neg h]
      simp only [List.map_cons, List.sum_cons, ih]
      omega

theorem groupByMethod_size (reqs : List ScrapeRequest) :
    ∀ acc : List (ScrapeMethod × List ScrapeRequest),
      (((reqs.foldl addToGroups acc).map (fun g => g.2.length)).sum) =
        ((acc.map (fun g => g.2.length)).sum) + reqs.length := by
  induction reqs with
  | nil =>
    intro acc
    simp
  | cons r reqs ih =>
    intro acc
    simp only [List.foldl_cons, List.length_cons]
    rw [ih (addToGroups acc r), addToGroups_size r acc]
    omega

/-- Claim C2 (amended): `batch_extract` returns exactly one result per
request (same length as the input, each backend's batch capability producing
one result per request as all three services do), but in **grouped** order:
the output is the concatenation of the per-backend groups in order of each
backend's first appearance, preserving request order only within each group —
not index-preserving across backends. -/
theorem batch_extract_grouped_order (st : Orchestrator) (reqs : List ScrapeRequest)
    (now : ℚ) (sc : ScrapeMethod → ScrapeRequest → ServiceOutcome)
    (hid : ∀ m r res, sc m r = .ok res → res.request_id = requestIdStr r) :
    (batch_extract st reqs (fun m rs => .ok (serviceBatchScrape (sc m) rs)) now).1.length =
      reqs.length ∧
    (batch_extract st reqs (fun m rs => .ok (serviceBatchScrape (sc m) rs)) now).1.map
        (fun r => r.request_id) =
      (groupByMethod reqs).flatMap (fun g => g.2.map requestIdStr) := by
  obtain ⟨h1, h2⟩ := processGroups_spec sc hid now (groupByMethod reqs) st
  refine ⟨?_, h1⟩
  rw [show batch_extract st reqs (fun m rs => .ok (serviceBatchScrape (sc m) rs)) now =
    processGroups (fun m rs => .ok (serviceBatchScrape (sc m) rs)) now st
      (groupByMethod reqs) from rfl]
  rw [h2]
  have := groupByMethod_size reqs []
  simpa [groupByMethod] using this

/-- The echo service oracle: succeeds and stamps the request's id. -/
def scEcho : ScrapeMethod → ScrapeRequest → ServiceOutcome :=
  fun _ r => .ok { request_id := requestIdStr r, status := .success }

/-- The batch oracle built from `scEcho` through the services' `batch_scrape`
wrapper. -/
def svcB2 : ScrapeMethod → List ScrapeRequest → BatchOutcome :=
  fun m rs => .ok (serviceBatchScrape (scEcho m) rs)

/-- Requests "a", "c" pin scrapy and "b" pins pydoll. -/
def reqsC2 : List ScrapeRequest :=
  [{ id := some "a", url := "https://a.example", method := .scrapy },
    { id := some "b", url := "https://b.example", method := .pydoll },
    { id := some "c", url := "https://c.example", method := .scrapy }]

/-- Claim C2 counterexample: with requests targeting backends
[scrapy, pydoll, scrapy] and all breakers closed, `batch_extract` returns the
results in grouped order ["a", "c", "b"]: the result at index 1 belongs to
the request at index 2, so grouping by backend does permute the output order
even though the length is preserved. -/
theorem batch_extract_not_index_preserving :
    reqsC2.map requestIdStr = ["a", "b", "c"] ∧
    (batch_extract stClosed reqsC2 svcB2 0).1.map (fun r => r.request_id) =
      ["a", "c", "b"] ∧
    (batch_extract stClosed reqsC2 svcB2 0).1.length = 3 := by
  refine ⟨rfl, ?_, ?_⟩ <;> rfl

theorem batch_extract_grouped_order_witness :
    (batch_extract stClosed reqsC2 svcB2 0).1.length = reqsC2.length ∧
    (batch_extract stClosed reqsC2 svcB2 0).1.map (fun r => r.request_id) =
      (groupByMethod reqsC2).flatMap (fun g => g.2.map requestIdStr) := by
  have h := batch_extract_grouped_order stClosed reqsC2 0 scEcho
    (fun m r res hres => by cases hres; rfl)
  exact h
